import Mathlib

/-!
Verification of the property-document pipeline.

Shallow embedding of the upload/extraction/analysis pipeline of the
property-document verifier (FastAPI backend):

* app/utils/file_handler.py : file-type validation and saving,
* app/vlm_processor.py      : OCR / layout extraction and regex field extraction,
* app/llm_reasoner.py       : the LLM exchange, free-text response parsing,
  summary construction and the static fallback payload,
* app/main.py               : the upload-document HTTP operation.

External effects (file system, OCR engine, LayoutLM inference, the Ollama
HTTP exchange, the wall clock) are modelled as oracle inputs quantified over
in the theorems.  Python floats on the score paths carry only values produced
by integer parsing, division by 100 and min/max clamping, so they are
modelled exactly by rationals.  Python dictionaries (built by insertion and
read with dict.get) are modelled as association lists.  Python exceptions are
modelled with Except; a try/except block becomes a match on the Except value.
-/

namespace PropDoc

/-! ## Python string primitives used by the pipeline -/

/-- Character-wise ASCII lowering, modelling str.lower() and the effect of
re.IGNORECASE on the ASCII patterns used by the code. -/
def lowerL (l : List Char) : List Char := l.map Char.toLower

/-- str.lower() on a whole string. -/
def pyLower (s : String) : String := String.mk (lowerL s.data)

/-- str.endswith(suffix). -/
def pyEndsWith (s suf : String) : Bool := suf.data.isSuffixOf s.data

/-- The ASCII whitespace characters stripped by str.strip(). -/
def wsChars : List Char := [' ', '\t', '\n', '\r', '\x0b', '\x0c']

/-- str.strip(chars): remove any leading and trailing characters drawn from
the set cs. -/
def stripSet (cs : List Char) (l : List Char) : List Char :=
  ((l.dropWhile (cs.contains ·)).reverse.dropWhile (cs.contains ·)).reverse

/-- str.strip() with no argument: strip ASCII whitespace from both ends. -/
def stripWS (l : List Char) : List Char := stripSet wsChars l

/-- str.strip() on a whole string. -/
def pyStripS (s : String) : String := String.mk (stripWS s.data)

/-- str.split of a string on the newline character; empty pieces are kept,
exactly as in Python text.split of a one-character separator. -/
def splitOnNl : List Char → List (List Char)
  | [] => [[]]
  | c :: t =>
    if c = '\n' then [] :: splitOnNl t
    else
      match splitOnNl t with
      | h :: r => (c :: h) :: r
      | [] => [[c]]

/-- int() on a string of decimal digits (the value float() then represents
exactly, the digit count being far below the float53 threshold in practice;
the score algebra below is exact rational arithmetic either way). -/
def digitsToNat (l : List Char) : Nat :=
  l.foldl (fun n c => 10 * n + (c.toNat - 48)) 0

/-- dict.get(key, default) on an association list. -/
def dget (d : List (String × String)) (k dflt : String) : String :=
  match d.lookup k with
  | some v => v
  | none => dflt

/-- Boolean test that pre is a leading piece of s (str.startswith). -/
def pyStarts (pre s : String) : Bool := pre.data.isPrefixOf s.data

/-- Python min of two numbers (returns the first argument on ties). -/
def pymin (a b : ℚ) : ℚ := if a ≤ b then a else b

/-- Python max of two numbers (returns the first argument on ties). -/
def pymax (a b : ℚ) : ℚ := if b ≤ a then a else b

/-- Case-insensitive match of pat at the head of l, modelling how the
re.IGNORECASE patterns of llm_reasoner.py compare their literal tokens. -/
def ciStartsWith (pat l : List Char) : Bool :=
  (lowerL pat).isPrefixOf (lowerL l)

/-- Occurrence of pat anywhere in l (used only to state, spec-side, that a
section header occurs in the LLM response; comparison is case-insensitive
like the code's regex search). -/
def containsSub (pat : List Char) : List Char → Bool
  | [] => pat.isPrefixOf []
  | c :: t => pat.isPrefixOf (c :: t) || containsSub pat t

/-- The header pat occurs (case-insensitively) somewhere in s. -/
def occursCI (pat s : String) : Bool := containsSub (lowerL pat.data) (lowerL s.data)

/-! ## JSON values

The upload-document operation answers with a JSON object; this inductive
models the JSON fragment the backend actually emits. -/

inductive Json where
  | null
  | bool (b : Bool)
  | num (q : ℚ)
  | str (s : String)
  | arr (elems : List Json)
  | obj (fields : List (String × Json))

/-- The field names of a JSON object, in emission order. -/
def Json.objKeys : Json → List String
  | .obj fields => fields.map Prod.fst
  | _ => []

/-- Field access on a JSON object. -/
def Json.lookupKey : Json → String → Option Json
  | .obj fields, k => fields.lookup k
  | _, _ => none

/-! ## app/utils/file_handler.py -/

/-- FileHandler.allowed_extensions.  In the source it is a Python set; only
membership is ever consulted, so a list is an exact model. -/
def allowed_extensions : List String := [".pdf", ".jpg", ".jpeg", ".png"]

/-- FileHandler.is_valid_file: an empty (or missing) filename is rejected,
otherwise the lowercased name must end with an allowed extension. -/
def is_valid_file (filename : String) : Bool :=
  if filename = "" then false
  else allowed_extensions.any (fun ext => pyEndsWith (pyLower filename) ext)

/-- FileHandler.save_file.  Writing to disk is an external effect; the oracle
fs carries either the stored path or the cause of failure, which the method
re-raises with the "File save error" wrapper. -/
def FileHandler.save_file (fs : Except String String) : Except String String :=
  match fs with
  | .ok path => .ok path
  | .error e => .error ("File save error: " ++ e)

/-! ## app/main.py : the document-types operation -/

/-- Body of the document-types operation: supported document types and the
file formats advertised for each. -/
def document_types : List (String × List String) :=
  [("Rent Agreement", [".pdf", ".jpg", ".png"]),
   ("Title Deed", [".pdf", ".jpg", ".png"]),
   ("NOC", [".pdf", ".jpg", ".png"])]

/-! ## app/vlm_processor.py -/

/-- Result shape of VLMProcessor.extract_layout_features: two boolean
heuristics (contour-based signature detection, colour-mask stamp detection)
plus the image dimensions. -/
structure LayoutData where
  signature_detected : Bool
  stamp_detected : Bool
  image_dimensions : Nat × Nat
  deriving DecidableEq, Repr

/-- The capture groups of the six re.search calls of
VLMProcessor.extract_rent_agreement_fields.  The regex engine itself is
external to the claims; each oracle field holds the captured text when the
corresponding pattern matched the OCR text. -/
structure RentMatches where
  landlord_tenant : Option (String × String)
  property_address : Option String
  term : Option String
  rent_amount : Option String
  security_deposit : Option String
  rent_due_date : Option String

/-- Capture groups of VLMProcessor.extract_title_deed_fields. -/
structure TitleMatches where
  owner : Option String
  property_details : Option String

/-- Capture groups of VLMProcessor.extract_noc_fields. -/
structure NOCMatches where
  applicant : Option String
  purpose : Option String

/-- VLMProcessor.extract_rent_agreement_fields: each field is inserted into
the dict only when its pattern matched; groups are stripped, amounts get a
dollar prefix. -/
def extract_rent_agreement_fields (m : RentMatches) : List (String × String) :=
  (match m.landlord_tenant with
   | some (g1, g2) => [("landlord", pyStripS g1), ("tenant", pyStripS g2)]
   | none => []) ++
  (match m.property_address with
   | some g => [("property_address", pyStripS g)]
   | none => []) ++
  (match m.term with
   | some g => [("term", pyStripS g)]
   | none => []) ++
  (match m.rent_amount with
   | some g => [("rent_amount", "$" ++ pyStripS g)]
   | none => []) ++
  (match m.security_deposit with
   | some g => [("security_deposit", "$" ++ pyStripS g)]
   | none => []) ++
  (match m.rent_due_date with
   | some g => [("rent_due_date", pyStripS g)]
   | none => [])

/-- VLMProcessor.extract_title_deed_fields. -/
def extract_title_deed_fields (m : TitleMatches) : List (String × String) :=
  (match m.owner with
   | some g => [("owner", pyStripS g)]
   | none => []) ++
  (match m.property_details with
   | some g => [("property_details", pyStripS g)]
   | none => [])

/-- VLMProcessor.extract_noc_fields. -/
def extract_noc_fields (m : NOCMatches) : List (String × String) :=
  (match m.applicant with
   | some g => [("applicant", pyStripS g)]
   | none => []) ++
  (match m.purpose with
   | some g => [("purpose", pyStripS g)]
   | none => [])

/-- External world of one VLMProcessor.extract_document_data call: the image
load / OCR outcome and the regex capture groups over the OCR text. -/
structure VLMWorld where
  /-- PDF conversion / image opening / OCR failure, if any: the try block of
  extract_document_data raises and the method re-raises with its wrapper. -/
  load_error : Option String
  /-- pytesseract.image_to_string result. -/
  ocr_text : String
  /-- extract_layout_features heuristics on the loaded image. -/
  layout : LayoutData
  /-- process_with_layoutlm result (it catches its own failures and returns a
  dict either way, so it is a plain value here). -/
  layoutlm_result : Json
  rent_matches : RentMatches
  title_matches : TitleMatches
  noc_matches : NOCMatches

/-- Attributes of a VLMProcessor instance as set in init. -/
structure VLMState where
  processor : Option String
  model : Option String
  device : String
  ready : Bool
  deriving DecidableEq, Repr

/-- Attributes of an LLMReasoner instance as set in init. -/
structure LLMState where
  ollama_url : String
  model_name : String
  ready : Bool
  deriving DecidableEq, Repr

/-- LLMReasoner attribute values assigned by init. -/
def LLMReasoner.mkState : LLMState :=
  { ollama_url := "http://localhost:11434/api/generate"
    model_name := "llama3.2:3b"
    ready := false }

/-- VLMProcessor attribute values assigned by init (device depends on CUDA
availability). -/
def VLMProcessor.mkState (cuda_available : Bool) : VLMState :=
  { processor := none
    model := none
    device := if cuda_available then "cuda" else "cpu"
    ready := false }

/-- Return shape of VLMProcessor.extract_document_data. -/
structure ExtractedData where
  raw_text : String
  layout_data : LayoutData
  structured_data : Json
  extracted_fields : List (String × String)
  document_type : String

/-- The pipeline stages named by the spec, used to record which stage runs
and in which order during one upload-document request. -/
inductive Stage where
  | validate
  | save
  | ocrExtract
  | regexExtract
  | llmCall
  | parseReply
  | respond
  deriving DecidableEq, Repr

/-- VLMProcessor.extract_document_fields: dispatch on the document type; an
unknown type yields the empty dict. -/
def extract_document_fields (w : VLMWorld) (document_type : String) :
    List (String × String) :=
  if document_type = "Rent Agreement" then extract_rent_agreement_fields w.rent_matches
  else if document_type = "Title Deed" then extract_title_deed_fields w.title_matches
  else if document_type = "NOC" then extract_noc_fields w.noc_matches
  else []

/-- VLMProcessor.extract_document_data.  The method only reads self; it never
assigns an attribute, so the state component of the result is the input
state.  The stage list records that OCR/layout extraction runs and, when
loading succeeded, the regex field extraction after it. -/
def VLMProcessor.extract_document_data (st : VLMState) (w : VLMWorld)
    (file_path document_type : String) :
    VLMState × List Stage × Except String ExtractedData :=
  (st,
   match w.load_error with
   | some e => ([.ocrExtract], .error ("VLM processing error: " ++ e))
   | none =>
     ([.ocrExtract, .regexExtract],
      .ok { raw_text := w.ocr_text
            layout_data := w.layout
            structured_data := w.layoutlm_result
            extracted_fields := extract_document_fields w document_type
            document_type := document_type }))

/-! ## app/llm_reasoner.py : response parsing -/

/-- The JSON "response" field returned by the Ollama API.  It is typed Any in
Python; a non-string value makes the re module raise TypeError when the
parser runs over it. -/
inductive LLMReply where
  | str (s : String)
  | nonStr

/-- A summary value: the layout booleans or an extracted text field. -/
inductive SVal where
  | b (v : Bool)
  | s (v : String)
  deriving DecidableEq, Repr

/-- Return shape of LLMReasoner.parse_llm_response (module schema
AnalysisResult). -/
structure AnalysisResult where
  summary : List (String × SVal)
  benefits : List String
  risks : List String
  completeness_score : ℚ
  confidence_score : ℚ
  deriving DecidableEq, Repr

/-- The alternation of the lookahead in LLMReasoner.extract_section:
RISKS:, COMPLETENESS: or SUMMARY: ends the lazily matched section body. -/
def stopsHere (l : List Char) : Bool :=
  ciStartsWith "RISKS:".data l ||
  ciStartsWith "COMPLETENESS:".data l ||
  ciStartsWith "SUMMARY:".data l

/-- End-of-line anchor of the lookahead: with re.DOTALL and no MULTILINE the
anchor holds at the end of the input and just before one trailing newline. -/
def dollarHere (l : List Char) : Bool := l.isEmpty || l = ['\n']

/-- Lazy continuation of the section body: keep consuming one character while
neither a stop token nor the end anchor holds at the current position. -/
def contentGo : List Char → List Char
  | [] => []
  | d :: t => if stopsHere (d :: t) || dollarHere (d :: t) then [] else d :: contentGo t

/-- The lazily matched group of extract_section: at least one character, then
the shortest extension after which the lookahead succeeds; none when nothing
follows the header (the one-or-more quantifier fails there). -/
def contentUpTo : List Char → Option (List Char)
  | [] => none
  | c :: t => some (c :: contentGo t)

/-- re.search of the extract_section pattern: scan left to right for a
position where the header matches case-insensitively and the group can be
completed; the first such position wins. -/
def searchSection : List Char → List Char → Option (List Char)
  | [], _ => none
  | c :: t, pat =>
    if ciStartsWith pat (c :: t) then
      match contentUpTo ((c :: t).drop pat.length) with
      | some content => some content
      | none => searchSection t pat
    else searchSection t pat

/-- Post-processing of the matched group in LLMReasoner.extract_section:
strip it, split it into lines, drop blank lines, clean each line of
leading/trailing dashes and whitespace, and keep only items longer than ten
characters. -/
def sectionItems (raw : List Char) : List String :=
  let content := stripWS raw
  let items :=
    ((splitOnNl content).filter (fun line => !(stripWS line).isEmpty)).map
      (fun line => stripWS (stripSet ['-', ' '] line))
  (items.filter (fun item => decide (10 < item.length))).map String.mk

/-- LLMReasoner.extract_section: locate the section body with the lazy
regex, then post-process the group. -/
def extract_section (response : String) (section_name : String) : List String :=
  match searchSection response.data (section_name.data ++ [':']) with
  | none => []
  | some raw => sectionItems raw

/-- One scan position of re.findall for the digits-percent pattern: the match
succeeds when the position starts a digit run whose first non-digit successor
is the percent sign; the captured group is that digit run. -/
def matchesAt (l : List Char) : Option Nat :=
  if (l.takeWhile Char.isDigit ≠ []) ∧ (l.dropWhile Char.isDigit).head? = some '%'
  then some (digitsToNat (l.takeWhile Char.isDigit)) else none

/-- Leftmost match of the digits-percent pattern, scanning position by
position exactly as the regex engine does. -/
def findPercentNum : List Char → Option Nat
  | [] => none
  | c :: t =>
    match matchesAt (c :: t) with
    | some n => some n
    | none => findPercentNum t

/-- LLMReasoner.extract_completeness: the first captured group converted to a
number, defaulting to 75.0 when no match exists. -/
def extract_completeness (response : String) : ℚ :=
  match findPercentNum response.data with
  | some n => (n : ℚ)
  | none => 75

/-- LLMReasoner.create_summary: the three base entries, then the
type-specific text fields, each defaulting to the placeholder when the
extractor found nothing. -/
def create_summary (ed : ExtractedData) (document_type : String) :
    List (String × SVal) :=
  let fields := ed.extracted_fields
  let layout := ed.layout_data
  let base : List (String × SVal) :=
    [("signaturePresent", .b layout.signature_detected),
     ("stampDutyDetected", .b layout.stamp_detected),
     ("documentType", .s document_type)]
  if document_type = "Rent Agreement" then
    base ++
      [("landlord", .s (dget fields "landlord" "Not detected")),
       ("tenant", .s (dget fields "tenant" "Not detected")),
       ("propertyAddress", .s (dget fields "property_address" "Not detected")),
       ("term", .s (dget fields "term" "Not detected")),
       ("rentAmount", .s (dget fields "rent_amount" "Not detected"))]
  else if document_type = "Title Deed" then
    base ++
      [("owner", .s (dget fields "owner" "Not detected")),
       ("propertyDetails", .s (dget fields "property_details" "Not detected"))]
  else if document_type = "NOC" then
    base ++
      [("applicant", .s (dget fields "applicant" "Not detected")),
       ("purpose", .s (dget fields "purpose" "Not detected"))]
  else base

/-- LLMReasoner.create_fallback_response: the static payload returned when
parsing the LLM response raised. -/
def create_fallback_response (ed : ExtractedData) (document_type : String) :
    AnalysisResult :=
  { summary := create_summary ed document_type
    benefits := ["Document uploaded successfully", "Basic information extracted"]
    risks := ["Unable to perform detailed analysis", "Manual review recommended"]
    completeness_score := 60
    confidence_score := 0.6 }

/-- extract_section applied to the raw reply: re.search raises TypeError when
the reply is not a string. -/
def extract_sectionE (reply : LLMReply) (section_name : String) :
    Except String (List String) :=
  match reply with
  | .str s => .ok (extract_section s section_name)
  | .nonStr => .error "expected string or bytes-like object"

/-- extract_completeness applied to the raw reply, with the same TypeError
behaviour. -/
def extract_completenessE (reply : LLMReply) : Except String ℚ :=
  match reply with
  | .str s => .ok (extract_completeness s)
  | .nonStr => .error "expected string or bytes-like object"

/-- The try body of LLMReasoner.parse_llm_response: sections, completeness,
summary, then the result record with the clamped confidence. -/
def parse_attempt (reply : LLMReply) (document_type : String)
    (ed : ExtractedData) : Except String AnalysisResult := do
  let benefits ← extract_sectionE reply "BENEFITS"
  let risks ← extract_sectionE reply "RISKS"
  let completeness ← extract_completenessE reply
  let summary := create_summary ed document_type
  pure { summary := summary
         benefits := benefits
         risks := risks
         completeness_score := completeness
         confidence_score := pymin 0.95 (pymax 0.6 (completeness / 100)) }

/-- LLMReasoner.parse_llm_response: the try body, with the broad except
returning the static fallback payload. -/
def parse_llm_response (reply : LLMReply) (document_type : String)
    (ed : ExtractedData) : AnalysisResult :=
  match parse_attempt reply document_type ed with
  | .ok a => a
  | .error _ => create_fallback_response ed document_type

/-- LLMReasoner.query_ollama: one POST to the Ollama API; a failure is
re-raised with the "Ollama query error" wrapper.  The network exchange is the
oracle net. -/
def LLMReasoner.query_ollama (net : Except String LLMReply) :
    Except String LLMReply :=
  match net with
  | .ok r => .ok r
  | .error e => .error ("Ollama query error: " ++ e)

/-- LLMReasoner.analyze_document: build the prompt, query Ollama once, parse
the reply; any failure is re-raised with the "LLM analysis error" wrapper.
The method only reads self, so the state component of the result is the input
state. -/
def LLMReasoner.analyze_document (st : LLMState) (net : Except String LLMReply)
    (ed : ExtractedData) (document_type : String) :
    LLMState × List Stage × Except String AnalysisResult :=
  (st,
   match LLMReasoner.query_ollama net with
   | .error e => ([.llmCall], .error ("LLM analysis error: " ++ e))
   | .ok reply =>
     ([.llmCall, .parseReply], .ok (parse_llm_response reply document_type ed)))

/-! ## app/main.py : the upload-document operation -/

/-- HTTPException as raised by the endpoint. -/
structure HTTPError where
  status_code : Nat
  detail : String
  deriving DecidableEq, Repr

/-- The upload request: the submitted filename and the document-type string. -/
structure UploadRequest where
  filename : String
  document_type : String

/-- External world of one upload-document request. -/
structure UploadWorld where
  /-- datetime.now().isoformat(). -/
  uploadTime : String
  /-- File-system outcome of FileHandler.save_file. -/
  save_result : Except String String
  /-- World of the VLM extraction call. -/
  vlm : VLMWorld
  /-- Network outcome of the single Ollama exchange. -/
  llm : Except String LLMReply

/-- JSON rendering of an analysis result, as emitted inside the success
response. -/
def svalToJson : SVal → Json
  | .b v => .bool v
  | .s v => .str v

/-- JSON rendering of an AnalysisResult value. -/
def analysisToJson (a : AnalysisResult) : Json :=
  .obj [("summary", .obj (a.summary.map (fun p => (p.1, svalToJson p.2)))),
        ("benefits", .arr (a.benefits.map .str)),
        ("risks", .arr (a.risks.map .str)),
        ("completeness_score", .num a.completeness_score),
        ("confidence_score", .num a.confidence_score)]

/-- The upload-document operation.  The try block validates the file type,
saves the file, extracts with the VLM, analyses with the LLM and builds the
success JSON; the broad except converts ANY raised exception, including the
HTTPException(400) raised for an invalid file type, into an HTTP 500 whose
detail wraps str(e).  The stage list records which stages ran, in order. -/
def upload_document (vSt : VLMState) (lSt : LLMState) (req : UploadRequest)
    (w : UploadWorld) : List Stage × Except HTTPError Json :=
  if is_valid_file req.filename then
    match FileHandler.save_file w.save_result with
    | .error e =>
      ([.validate, .save], .error ⟨500, "Processing error: " ++ e⟩)
    | .ok file_path =>
      match VLMProcessor.extract_document_data vSt w.vlm file_path req.document_type with
      | (_, ev₁, .error e) =>
        ([.validate, .save] ++ ev₁, .error ⟨500, "Processing error: " ++ e⟩)
      | (_, ev₁, .ok ed) =>
        match LLMReasoner.analyze_document lSt w.llm ed req.document_type with
        | (_, ev₂, .error e) =>
          ([.validate, .save] ++ ev₁ ++ ev₂,
           .error ⟨500, "Processing error: " ++ e⟩)
        | (_, ev₂, .ok analysis) =>
          ([.validate, .save] ++ ev₁ ++ ev₂ ++ [.respond],
           .ok (Json.obj
             [("documentType", .str req.document_type),
              ("filename", .str req.filename),
              ("uploadTime", .str w.uploadTime),
              ("analysis", analysisToJson analysis),
              ("status", .str "success")]))
  else
    -- HTTPException(400, "Invalid file type") is itself an Exception, so the
    -- broad except catches it and re-raises it as the generic 500, with
    -- str(e) rendering as "400: Invalid file type".
    ([.validate], .error ⟨500, "Processing error: 400: Invalid file type"⟩)

/-- The canonical single pass of the pipeline. -/
def canonicalPipeline : List Stage :=
  [.validate, .save, .ocrExtract, .regexExtract, .llmCall, .parseReply, .respond]

/-- The declarative shape of a digit run immediately followed by the percent
sign at offset a.length of l (spec side of the completeness extraction). -/
def IsPercentIntAt (l a d b : List Char) : Prop :=
  l = a ++ d ++ '%' :: b ∧ d ≠ [] ∧ ∀ c ∈ d, c.isDigit = true

/-- The column name of each type-specific summary field together with the
extracted-fields key it is read from. -/
def summaryFieldMap (document_type : String) : List (String × String) :=
  if document_type = "Rent Agreement" then
    [("landlord", "landlord"), ("tenant", "tenant"),
     ("propertyAddress", "property_address"), ("term", "term"),
     ("rentAmount", "rent_amount")]
  else if document_type = "Title Deed" then
    [("owner", "owner"), ("propertyDetails", "property_details")]
  else if document_type = "NOC" then
    [("applicant", "applicant"), ("purpose", "purpose")]
  else []

/-! ## Concrete sample inputs used to instantiate the theorems -/

/-- A well-formed extraction value with no regex hits and no layout
detections. -/
def edX : ExtractedData :=
  { raw_text := ""
    layout_data := ⟨false, false, (0, 0)⟩
    structured_data := Json.null
    extracted_fields := []
    document_type := "NOC" }

/-- A VLM instance fresh from init on a CPU-only machine. -/
def stV : VLMState := VLMProcessor.mkState false

/-- An LLM reasoner instance fresh from init. -/
def stL : LLMState := LLMReasoner.mkState

/-- A valid upload request. -/
def reqOK : UploadRequest := ⟨"doc.pdf", "Rent Agreement"⟩

/-- A request whose filename has a rejected extension. -/
def reqBad : UploadRequest := ⟨"doc.txt", "NOC"⟩

/-- A fully successful external world: save succeeds, the image loads, no
regex matches, the Ollama exchange yields an empty reply string. -/
def worldOK : UploadWorld :=
  { uploadTime := "2024-01-01T00:00:00"
    save_result := .ok "uploads/Rent_Agreement/x.pdf"
    vlm :=
      { load_error := none
        ocr_text := ""
        layout := ⟨true, false, (800, 600)⟩
        layoutlm_result := Json.null
        rent_matches := ⟨none, none, none, none, none, none⟩
        title_matches := ⟨none, none⟩
        noc_matches := ⟨none, none⟩ }
    llm := .ok (.str "") }

/-- The JSON body the pipeline produces for reqOK under worldOK. -/
def jOK : Json :=
  Json.obj
    [("documentType", .str "Rent Agreement"),
     ("filename", .str "doc.pdf"),
     ("uploadTime", .str "2024-01-01T00:00:00"),
     ("analysis", Json.obj
        [("summary", Json.obj
            [("signaturePresent", .bool true),
             ("stampDutyDetected", .bool false),
             ("documentType", .str "Rent Agreement"),
             ("landlord", .str "Not detected"),
             ("tenant", .str "Not detected"),
             ("propertyAddress", .str "Not detected"),
             ("term", .str "Not detected"),
             ("rentAmount", .str "Not detected")]),
         ("benefits", Json.arr []),
         ("risks", Json.arr []),
         ("completeness_score", Json.num 75),
         ("confidence_score", Json.num (3 / 4))]),
     ("status", .str "success")]

/-! ## Helper lemmas -/

/-- A list is a leading piece of itself followed by anything. -/
theorem isPrefixOf_append_self (l m : List Char) : l.isPrefixOf (l ++ m) = true := by
  induction l with
  | nil => simp [List.isPrefixOf]
  | cons c t ih => simp [List.isPrefixOf, ih]

/-- A wrapped error message starts with its wrapper. -/
theorem pyStarts_append (p x : String) : pyStarts p (p ++ x) = true := by
  unfold pyStarts
  rw [String.data_append]
  exact isPrefixOf_append_self _ _

/-- The clamp used on the confidence score stays inside the clamping
interval. -/
theorem pymin_pymax_bounds (x : ℚ) :
    (0.6 : ℚ) ≤ pymin 0.95 (pymax 0.6 x) ∧ pymin 0.95 (pymax 0.6 x) ≤ 0.95 := by
  unfold pymin pymax
  rcases le_or_lt x 0.6 with h1 | h1
  · rw [if_pos h1, if_neg (by norm_num : ¬(0.95 : ℚ) ≤ 0.6)]
    norm_num
  · rw [if_neg (not_le.mpr h1)]
    rcases le_or_lt 0.95 x with h2 | h2
    · rw [if_pos h2]
      norm_num
    · rw [if_neg (not_le.mpr h2)]
      exact ⟨le_of_lt h1, le_of_lt h2⟩

/-- takeWhile and dropWhile around a block of satisfying elements followed by
a failing one. -/
theorem takeWhile_all_append {p : Char → Bool} (d : List Char) (x : Char)
    (b : List Char) (hall : ∀ c ∈ d, p c = true) (hx : p x = false) :
    (d ++ x :: b).takeWhile p = d ∧ (d ++ x :: b).dropWhile p = x :: b := by
  induction d with
  | nil => simp [List.takeWhile_cons, List.dropWhile_cons, hx]
  | cons c t ih =>
    have hc : p c = true := hall c (List.mem_cons_self c t)
    obtain ⟨h1, h2⟩ := ih (fun a ha => hall a (List.mem_cons_of_mem _ ha))
    constructor <;>
      simp [List.cons_append, List.takeWhile_cons, List.dropWhile_cons, hc, h1, h2]

/-- A successful position match of the digits-percent pattern exhibits a
digit run followed by the percent sign at the head of the list. -/
theorem matchesAt_eq_some (l : List Char) (n : Nat) (h : matchesAt l = some n) :
    ∃ d b, l = d ++ '%' :: b ∧ d ≠ [] ∧ (∀ c ∈ d, c.isDigit = true) ∧
      n = digitsToNat d := by
  unfold matchesAt at h
  split at h
  case isTrue hcond =>
    obtain ⟨hne, hhd⟩ := hcond
    cases hdw : l.dropWhile Char.isDigit with
    | nil => rw [hdw] at hhd; simp at hhd
    | cons a t =>
      rw [hdw] at hhd
      simp at hhd
      subst hhd
      refine ⟨l.takeWhile Char.isDigit, t, ?_, hne, ?_, ?_⟩
      · conv_lhs => rw [← List.takeWhile_append_dropWhile (p := Char.isDigit) (l := l)]
        rw [hdw]
      · exact fun c hc => List.mem_takeWhile_imp hc
      · injection h with h'
        exact h'.symm
  case isFalse => exact absurd h (by simp)

/-- Conversely, a digit run followed by the percent sign at the head of the
list makes the position match succeed with that run as group. -/
theorem matchesAt_of_decomp (d b : List Char) (hd : d ≠ [])
    (hdig : ∀ c ∈ d, c.isDigit = true) :
    matchesAt (d ++ '%' :: b) = some (digitsToNat d) := by
  obtain ⟨h1, h2⟩ := takeWhile_all_append d '%' b hdig (by decide)
  unfold matchesAt
  rw [h1, h2]
  rw [if_pos ⟨hd, rfl⟩]

/-- Soundness of the scan: a found number comes from an actual digit run
followed by the percent sign. -/
theorem findPercentNum_some (l : List Char) (n : Nat)
    (h : findPercentNum l = some n) :
    ∃ a d b, IsPercentIntAt l a d b ∧ n = digitsToNat d := by
  induction l with
  | nil => simp [findPercentNum] at h
  | cons c t ih =>
    rw [findPercentNum] at h
    cases hm : matchesAt (c :: t) with
    | some m =>
      rw [hm] at h
      injection h with h'
      subst h'
      obtain ⟨d, b, hl, hd, hdig, hn⟩ := matchesAt_eq_some _ _ hm
      exact ⟨[], d, b, ⟨by simpa using hl, hd, hdig⟩, hn⟩
    | none =>
      rw [hm] at h
      obtain ⟨a, d, b, ⟨hl, hd, hdig⟩, hn⟩ := ih h
      exact ⟨c :: a, d, b, ⟨by simp [hl], hd, hdig⟩, hn⟩

/-- Completeness of the scan: the leftmost digit run followed by the percent
sign is the one found, and its value is returned. -/
theorem findPercentNum_first (d b : List Char) :
    ∀ (a l : List Char), l = a ++ d ++ '%' :: b → d ≠ [] →
    (∀ c ∈ d, c.isDigit = true) →
    (∀ a' d' b', IsPercentIntAt l a' d' b' → a.length ≤ a'.length) →
    findPercentNum l = some (digitsToNat d) := by
  intro a
  induction a with
  | nil =>
    intro l hl hd hdig _
    subst hl
    cases d with
    | nil => exact absurd rfl hd
    | cons c dt =>
      show findPercentNum (c :: (dt ++ '%' :: b)) = some (digitsToNat (c :: dt))
      rw [findPercentNum]
      have hm : matchesAt (c :: (dt ++ '%' :: b)) = some (digitsToNat (c :: dt)) :=
        matchesAt_of_decomp (c :: dt) b hd hdig
      rw [hm]
  | cons c a₂ ih =>
    intro l hl hd hdig hmin
    subst hl
    have hm : matchesAt (c :: (a₂ ++ d ++ '%' :: b)) = none := by
      cases hm2 : matchesAt (c :: (a₂ ++ d ++ '%' :: b)) with
      | none => rfl
      | some m =>
        obtain ⟨d₀, b₀, hl0, hd0, hdig0, _⟩ := matchesAt_eq_some _ _ hm2
        have h0 := hmin [] d₀ b₀ ⟨by simpa using hl0, hd0, hdig0⟩
        simp at h0
    show findPercentNum (c :: (a₂ ++ d ++ '%' :: b)) = some (digitsToNat d)
    rw [findPercentNum, hm]
    apply ih (a₂ ++ d ++ '%' :: b) rfl hd hdig
    intro a' d' b' hP
    have hstep := hmin (c :: a') d' b' ⟨by simp [hP.1], hP.2.1, hP.2.2⟩
    simp only [List.length_cons] at hstep
    omega

/-- Every string produced by the section post-processing survived the
longer-than-ten filter. -/
theorem sectionItems_mem (raw : List Char) (item : String)
    (hmem : item ∈ sectionItems raw) : item ≠ "" ∧ 10 < item.length := by
  unfold sectionItems at hmem
  simp only [List.mem_map, List.mem_filter] at hmem
  obtain ⟨it, ⟨_, hlen⟩, rfl⟩ := hmem
  have hl : 10 < it.length := of_decide_eq_true hlen
  constructor
  · intro hempty
    have hnil : it = [] := congrArg String.data hempty
    rw [hnil] at hl
    exact absurd hl (by decide)
  · show 10 < (String.mk it).length
    rw [String.length_mk]
    exact hl

/-- A successful section search implies the header occurs (up to case) in
the scanned text. -/
theorem searchSection_occurs (l pat r : List Char)
    (h : searchSection l pat = some r) :
    containsSub (lowerL pat) (lowerL l) = true := by
  induction l with
  | nil => simp [searchSection] at h
  | cons c t ih =>
    rw [searchSection] at h
    by_cases hp : ciStartsWith pat (c :: t)
    · show containsSub (lowerL pat) (Char.toLower c :: lowerL t) = true
      rw [containsSub]
      have hpre : (lowerL pat).isPrefixOf (Char.toLower c :: lowerL t) = true := hp
      simp [hpre]
    · rw [if_neg hp] at h
      have := ih h
      show containsSub (lowerL pat) (Char.toLower c :: lowerL t) = true
      rw [containsSub]
      simp [this]

/-- When the header does not occur in the response, extract_section yields
the empty list. -/
theorem extract_section_no_header (s section_name : String)
    (h : containsSub (lowerL (section_name.data ++ [':'])) (lowerL s.data) = false) :
    extract_section s section_name = [] := by
  cases hsr : searchSection s.data (section_name.data ++ [':']) with
  | none => unfold extract_section; rw [hsr]
  | some raw =>
    have := searchSection_occurs _ _ _ hsr
    rw [this] at h
    exact absurd h (by simp)

/-- Every item kept by extract_section is longer than ten characters. -/
theorem extract_section_mem (s section_name item : String)
    (hmem : item ∈ extract_section s section_name) :
    item ≠ "" ∧ 10 < item.length := by
  unfold extract_section at hmem
  cases hsr : searchSection s.data (section_name.data ++ [':']) with
  | none => rw [hsr] at hmem; simp at hmem
  | some raw =>
    rw [hsr] at hmem
    exact sectionItems_mem raw item hmem

/-- Full case analysis of one upload-document request: the four error exits
and the success exit, each with its stage trace. -/
theorem upload_document_cases (vSt : VLMState) (lSt : LLMState)
    (req : UploadRequest) (w : UploadWorld) :
    (upload_document vSt lSt req w =
       ([.validate], .error ⟨500, "Processing error: 400: Invalid file type"⟩)) ∨
    (∃ e, upload_document vSt lSt req w =
       ([.validate, .save],
        .error ⟨500, "Processing error: " ++ ("File save error: " ++ e)⟩)) ∨
    (∃ e, upload_document vSt lSt req w =
       ([.validate, .save, .ocrExtract],
        .error ⟨500, "Processing error: " ++ ("VLM processing error: " ++ e)⟩)) ∨
    (∃ e, upload_document vSt lSt req w =
       ([.validate, .save, .ocrExtract, .regexExtract, .llmCall],
        .error ⟨500, "Processing error: " ++
          ("LLM analysis error: " ++ ("Ollama query error: " ++ e))⟩)) ∨
    (∃ reply ed, upload_document vSt lSt req w =
       (canonicalPipeline, .ok (Json.obj
          [("documentType", .str req.document_type),
           ("filename", .str req.filename),
           ("uploadTime", .str w.uploadTime),
           ("analysis", analysisToJson (parse_llm_response reply req.document_type ed)),
           ("status", .str "success")]))) := by
  unfold upload_document
  by_cases hv : is_valid_file req.filename
  · rw [if_pos hv]
    cases hsr : w.save_result with
    | error e =>
      refine Or.inr (Or.inl ⟨e, ?_⟩)
      simp [FileHandler.save_file]
    | ok fp =>
      simp only [FileHandler.save_file]
      cases hle : w.vlm.load_error with
      | some e =>
        refine Or.inr (Or.inr (Or.inl ⟨e, ?_⟩))
        simp [VLMProcessor.extract_document_data, hle]
      | none =>
        simp only [VLMProcessor.extract_document_data, hle]
        cases hnet : w.llm with
        | error e =>
          refine Or.inr (Or.inr (Or.inr (Or.inl ⟨e, ?_⟩)))
          simp [LLMReasoner.analyze_document, LLMReasoner.query_ollama]
        | ok reply =>
          refine Or.inr (Or.inr (Or.inr (Or.inr ⟨reply,
            { raw_text := w.vlm.ocr_text
              layout_data := w.vlm.layout
              structured_data := w.vlm.layoutlm_result
              extracted_fields := extract_document_fields w.vlm req.document_type
              document_type := req.document_type }, ?_⟩)))
          simp [LLMReasoner.analyze_document, LLMReasoner.query_ollama,
            canonicalPipeline]
  · rw [if_neg hv]
    exact Or.inl rfl

/-- Evaluation of the sample successful upload: the body equals jOK.  The
only non-structural step is the rational clamp, discharged by norm_num. -/
theorem upload_ok_eval : (upload_document stV stL reqOK worldOK).2 = .ok jOK := by
  have hc : pymin 0.95 (pymax 0.6 ((75 : ℚ) / 100)) = 3 / 4 := by
    norm_num [pymin, pymax]
  show Except.ok (Json.obj
    [("documentType", Json.str "Rent Agreement"),
     ("filename", Json.str "doc.pdf"),
     ("uploadTime", Json.str "2024-01-01T00:00:00"),
     ("analysis", analysisToJson
        { summary := create_summary
            { raw_text := ""
              layout_data := ⟨true, false, (800, 600)⟩
              structured_data := Json.null
              extracted_fields := []
              document_type := "Rent Agreement" } "Rent Agreement"
          benefits := []
          risks := []
          completeness_score := 75
          confidence_score := pymin 0.95 (pymax 0.6 ((75 : ℚ) / 100)) }),
     ("status", Json.str "success")]) = Except.ok jOK
  rw [hc]
  rfl

/-! ## The claims -/

/-- C1: every successfully processed upload returns a JSON object with
exactly the keys documentType, filename, uploadTime, analysis, status, the
status value is the string success, and the analysis value has the fixed
shape with a summary mapping, a benefits list, a risks list and the
completeness and confidence scores. -/
theorem C1_success_response_shape (vSt : VLMState) (lSt : LLMState)
    (req : UploadRequest) (w : UploadWorld) (j : Json)
    (h : (upload_document vSt lSt req w).2 = .ok j) :
    j.objKeys = ["documentType", "filename", "uploadTime", "analysis", "status"] ∧
    j.lookupKey "status" = some (.str "success") ∧
    ∃ a : AnalysisResult,
      j.lookupKey "analysis" = some (analysisToJson a) ∧
      (analysisToJson a).objKeys =
        ["summary", "benefits", "risks", "completeness_score", "confidence_score"] := by
  rcases upload_document_cases vSt lSt req w with
    h1 | ⟨e, h1⟩ | ⟨e, h1⟩ | ⟨e, h1⟩ | ⟨reply, ed, h1⟩ <;> rw [h1] at h
  · simp at h
  · simp at h
  · simp at h
  · simp at h
  · simp at h
    subst h
    exact ⟨rfl, rfl, parse_llm_response reply req.document_type ed, rfl, rfl⟩

/-- C1 witness: a concrete successful upload with the expected JSON shape. -/
theorem C1_witness :
    (upload_document stV stL reqOK worldOK).2 = .ok jOK ∧
    jOK.objKeys = ["documentType", "filename", "uploadTime", "analysis", "status"] ∧
    jOK.lookupKey "status" = some (.str "success") := by
  have h : (upload_document stV stL reqOK worldOK).2 = .ok jOK := upload_ok_eval
  exact ⟨h, (C1_success_response_shape stV stL reqOK worldOK jOK h).1,
    (C1_success_response_shape stV stL reqOK worldOK jOK h).2.1⟩

/-- C2: every failure of the upload-document operation is converted to the
generic HTTP 500 with the Processing error prefix; no other status code is
ever produced on the error path (the HTTPException 400 raised for an invalid
file type is itself swallowed by the broad except and rewrapped as a 500). -/
theorem C2_error_path_is_500 (vSt : VLMState) (lSt : LLMState)
    (req : UploadRequest) (w : UploadWorld) (e : HTTPError)
    (h : (upload_document vSt lSt req w).2 = .error e) :
    e.status_code = 500 ∧ pyStarts "Processing error: " e.detail = true := by
  rcases upload_document_cases vSt lSt req w with
    h1 | ⟨x, h1⟩ | ⟨x, h1⟩ | ⟨x, h1⟩ | ⟨reply, ed, h1⟩ <;> rw [h1] at h
  · replace h : Except.error (⟨500, "Processing error: 400: Invalid file type"⟩ :
      HTTPError) = .error e := h
    injection h with h'
    subst h'
    exact ⟨rfl, by decide⟩
  · replace h : Except.error (⟨500, "Processing error: " ++
      ("File save error: " ++ x)⟩ : HTTPError) = .error e := h
    injection h with h'
    subst h'
    exact ⟨rfl, pyStarts_append _ _⟩
  · replace h : Except.error (⟨500, "Processing error: " ++
      ("VLM processing error: " ++ x)⟩ : HTTPError) = .error e := h
    injection h with h'
    subst h'
    exact ⟨rfl, pyStarts_append _ _⟩
  · replace h : Except.error (⟨500, "Processing error: " ++
      ("LLM analysis error: " ++ ("Ollama query error: " ++ x))⟩ : HTTPError) =
      .error e := h
    injection h with h'
    subst h'
    exact ⟨rfl, pyStarts_append _ _⟩
  · simp at h

/-- C2 witness: the invalid-extension request produces exactly the generic
500. -/
theorem C2_witness :
    (upload_document stV stL reqBad worldOK).2 =
      .error ⟨500, "Processing error: 400: Invalid file type"⟩ ∧
    (⟨500, "Processing error: 400: Invalid file type"⟩ : HTTPError).status_code = 500 := by
  have h : (upload_document stV stL reqBad worldOK).2 =
      .error ⟨500, "Processing error: 400: Invalid file type"⟩ := rfl
  exact ⟨h, (C2_error_path_is_500 stV stL reqBad worldOK _ h).1⟩

/-- C3: whenever parsing the LLM reply raises, analyze_document returns the
static fallback payload: the summary computed from the extracted fields, the
two fixed benefit strings, the two fixed risk strings, completeness 60 and
confidence 0.6. -/
theorem C3_parse_failure_returns_fallback (lSt : LLMState) (reply : LLMReply)
    (ed : ExtractedData) (document_type : String) (err : String)
    (hfail : parse_attempt reply document_type ed = .error err) :
    (LLMReasoner.analyze_document lSt (.ok reply) ed document_type).2.2 =
      .ok { summary := create_summary ed document_type
            benefits := ["Document uploaded successfully", "Basic information extracted"]
            risks := ["Unable to perform detailed analysis", "Manual review recommended"]
            completeness_score := 60
            confidence_score := 0.6 } := by
  show Except.ok (parse_llm_response reply document_type ed) = _
  unfold parse_llm_response
  rw [hfail]
  rfl

/-- C3 witness: a non-string Ollama reply makes the parser raise and the
fallback payload is returned. -/
theorem C3_witness :
    parse_attempt .nonStr "NOC" edX = .error "expected string or bytes-like object" ∧
    (LLMReasoner.analyze_document stL (.ok .nonStr) edX "NOC").2.2 =
      .ok { summary := create_summary edX "NOC"
            benefits := ["Document uploaded successfully", "Basic information extracted"]
            risks := ["Unable to perform detailed analysis", "Manual review recommended"]
            completeness_score := 60
            confidence_score := 0.6 } :=
  ⟨rfl, C3_parse_failure_returns_fallback stL .nonStr edX "NOC" _ rfl⟩

/-- C4: every type-specific summary field is present, and it carries the
placeholder string when the extractor produced nothing for its source key. -/
theorem C4_missing_field_defaults (ed : ExtractedData)
    (document_type k srcK : String)
    (hmem : (k, srcK) ∈ summaryFieldMap document_type) :
    ((create_summary ed document_type).lookup k).isSome = true ∧
    (ed.extracted_fields.lookup srcK = none →
      (create_summary ed document_type).lookup k = some (.s "Not detected")) := by
  by_cases h1 : document_type = "Rent Agreement"
  · subst h1
    simp [summaryFieldMap, Prod.mk.injEq] at hmem
    rcases hmem with ⟨rfl, rfl⟩ | ⟨rfl, rfl⟩ | ⟨rfl, rfl⟩ | ⟨rfl, rfl⟩ | ⟨rfl, rfl⟩
    · exact ⟨rfl, fun hn => by
        show some (SVal.s (dget ed.extracted_fields "landlord" "Not detected")) = _
        unfold dget; rw [hn]⟩
    · exact ⟨rfl, fun hn => by
        show some (SVal.s (dget ed.extracted_fields "tenant" "Not detected")) = _
        unfold dget; rw [hn]⟩
    · exact ⟨rfl, fun hn => by
        show some (SVal.s (dget ed.extracted_fields "property_address" "Not detected")) = _
        unfold dget; rw [hn]⟩
    · exact ⟨rfl, fun hn => by
        show some (SVal.s (dget ed.extracted_fields "term" "Not detected")) = _
        unfold dget; rw [hn]⟩
    · exact ⟨rfl, fun hn => by
        show some (SVal.s (dget ed.extracted_fields "rent_amount" "Not detected")) = _
        unfold dget; rw [hn]⟩
  · by_cases h2 : document_type = "Title Deed"
    · subst h2
      simp [summaryFieldMap, Prod.mk.injEq] at hmem
      rcases hmem with ⟨rfl, rfl⟩ | ⟨rfl, rfl⟩
      · exact ⟨rfl, fun hn => by
          show some (SVal.s (dget ed.extracted_fields "owner" "Not detected")) = _
          unfold dget; rw [hn]⟩
      · exact ⟨rfl, fun hn => by
          show some (SVal.s (dget ed.extracted_fields "property_details" "Not detected")) = _
          unfold dget; rw [hn]⟩
    · by_cases h3 : document_type = "NOC"
      · subst h3
        simp [summaryFieldMap, Prod.mk.injEq] at hmem
        rcases hmem with ⟨rfl, rfl⟩ | ⟨rfl, rfl⟩
        · exact ⟨rfl, fun hn => by
            show some (SVal.s (dget ed.extracted_fields "applicant" "Not detected")) = _
            unfold dget; rw [hn]⟩
        · exact ⟨rfl, fun hn => by
            show some (SVal.s (dget ed.extracted_fields "purpose" "Not detected")) = _
            unfold dget; rw [hn]⟩
      · simp only [summaryFieldMap, if_neg h1, if_neg h2, if_neg h3] at hmem
        exact absurd hmem (List.not_mem_nil _)

/-- C4 witness: an empty extraction yields the placeholder applicant. -/
theorem C4_witness :
    ("applicant", "applicant") ∈ summaryFieldMap "NOC" ∧
    (create_summary edX "NOC").lookup "applicant" = some (.s "Not detected") := by
  have hm : ("applicant", "applicant") ∈ summaryFieldMap "NOC" := by decide
  exact ⟨hm, (C4_missing_field_defaults edX "NOC" "applicant" "applicant" hm).2 rfl⟩

/-- C5: the summary contains exactly the expected keys for the document
type, and the two booleans carry exactly the layout heuristics. -/
theorem C5_summary_expected_keys (ed : ExtractedData) (document_type : String) :
    (create_summary ed document_type).map Prod.fst =
      ["signaturePresent", "stampDutyDetected", "documentType"] ++
        (if document_type = "Rent Agreement" then
          ["landlord", "tenant", "propertyAddress", "term", "rentAmount"]
         else if document_type = "Title Deed" then ["owner", "propertyDetails"]
         else if document_type = "NOC" then ["applicant", "purpose"]
         else []) ∧
    (create_summary ed document_type).lookup "signaturePresent" =
      some (.b ed.layout_data.signature_detected) ∧
    (create_summary ed document_type).lookup "stampDutyDetected" =
      some (.b ed.layout_data.stamp_detected) ∧
    (create_summary ed document_type).lookup "documentType" =
      some (.s document_type) := by
  by_cases h1 : document_type = "Rent Agreement"
  · subst h1
    exact ⟨rfl, rfl, rfl, rfl⟩
  · by_cases h2 : document_type = "Title Deed"
    · subst h2
      exact ⟨rfl, rfl, rfl, rfl⟩
    · by_cases h3 : document_type = "NOC"
      · subst h3
        exact ⟨rfl, rfl, rfl, rfl⟩
      · refine ⟨?_, ?_, ?_, ?_⟩ <;>
          simp only [create_summary, summaryFieldMap, if_neg h1, if_neg h2, if_neg h3] <;>
          rfl

/-- C6: each upload runs the pipeline once in order; the trace is always a
leading piece of the canonical pass, a successful upload runs exactly the
canonical pass, and the LLM is called at most once. -/
theorem C6_single_pass_pipeline (vSt : VLMState) (lSt : LLMState)
    (req : UploadRequest) (w : UploadWorld) :
    (∃ n, (upload_document vSt lSt req w).1 = canonicalPipeline.take n) ∧
    (∀ j, (upload_document vSt lSt req w).2 = .ok j →
      (upload_document vSt lSt req w).1 = canonicalPipeline) ∧
    (upload_document vSt lSt req w).1.count .llmCall ≤ 1 := by
  rcases upload_document_cases vSt lSt req w with
    h1 | ⟨e, h1⟩ | ⟨e, h1⟩ | ⟨e, h1⟩ | ⟨reply, ed, h1⟩ <;> rw [h1]
  · refine ⟨⟨1, rfl⟩, ?_, ?_⟩
    · intro j hj
      simp at hj
    · show List.count Stage.llmCall [Stage.validate] ≤ 1
      decide
  · refine ⟨⟨2, rfl⟩, ?_, ?_⟩
    · intro j hj
      simp at hj
    · show List.count Stage.llmCall [Stage.validate, Stage.save] ≤ 1
      decide
  · refine ⟨⟨3, rfl⟩, ?_, ?_⟩
    · intro j hj
      simp at hj
    · show List.count Stage.llmCall [Stage.validate, Stage.save, Stage.ocrExtract] ≤ 1
      decide
  · refine ⟨⟨5, rfl⟩, ?_, ?_⟩
    · intro j hj
      simp at hj
    · show List.count Stage.llmCall
        [Stage.validate, Stage.save, Stage.ocrExtract, Stage.regexExtract, Stage.llmCall] ≤ 1
      decide
  · refine ⟨⟨7, rfl⟩, fun _ _ => rfl, ?_⟩
    show List.count Stage.llmCall canonicalPipeline ≤ 1
    decide

/-- C6 witness: the concrete successful upload runs exactly the canonical
pass. -/
theorem C6_witness :
    (upload_document stV stL reqOK worldOK).1 = canonicalPipeline := by
  obtain ⟨_, hok, _⟩ := C6_single_pass_pipeline stV stL reqOK worldOK
  exact hok jOK upload_ok_eval

/-- C7: extraction and analysis are stateless: both methods return every
instance attribute (processor, model, device, ready, ollama url, model name)
unchanged. -/
theorem C7_stages_stateless (vSt : VLMState) (lSt : LLMState) (w : VLMWorld)
    (net : Except String LLMReply) (file_path document_type : String)
    (ed : ExtractedData) (document_type2 : String) :
    (VLMProcessor.extract_document_data vSt w file_path document_type).1 = vSt ∧
    (VLMProcessor.extract_document_data vSt w file_path document_type).1.processor
      = vSt.processor ∧
    (VLMProcessor.extract_document_data vSt w file_path document_type).1.model
      = vSt.model ∧
    (VLMProcessor.extract_document_data vSt w file_path document_type).1.device
      = vSt.device ∧
    (VLMProcessor.extract_document_data vSt w file_path document_type).1.ready
      = vSt.ready ∧
    (LLMReasoner.analyze_document lSt net ed document_type2).1 = lSt ∧
    (LLMReasoner.analyze_document lSt net ed document_type2).1.ollama_url
      = lSt.ollama_url ∧
    (LLMReasoner.analyze_document lSt net ed document_type2).1.model_name
      = lSt.model_name ∧
    (LLMReasoner.analyze_document lSt net ed document_type2).1.ready
      = lSt.ready :=
  ⟨rfl, rfl, rfl, rfl, rfl, rfl, rfl, rfl, rfl⟩

/-- C8: on every parsing path, including the fallback, the confidence score
is the completeness percentage divided by one hundred clamped to the closed
interval from 0.6 to 0.95, and in particular lies in that interval. -/
theorem C8_confidence_clamped (reply : LLMReply) (document_type : String)
    (ed : ExtractedData) :
    (0.6 : ℚ) ≤ (parse_llm_response reply document_type ed).confidence_score ∧
    (parse_llm_response reply document_type ed).confidence_score ≤ 0.95 ∧
    (parse_llm_response reply document_type ed).confidence_score =
      pymin 0.95 (pymax 0.6
        ((parse_llm_response reply document_type ed).completeness_score / 100)) := by
  cases reply with
  | nonStr =>
    have h : parse_llm_response .nonStr document_type ed =
        create_fallback_response ed document_type := rfl
    rw [h]
    unfold create_fallback_response
    refine ⟨le_refl _, by norm_num, ?_⟩
    show (0.6 : ℚ) = pymin 0.95 (pymax 0.6 ((60 : ℚ) / 100))
    norm_num [pymin, pymax]
  | str s =>
    have h : parse_llm_response (.str s) document_type ed =
        { summary := create_summary ed document_type
          benefits := extract_section s "BENEFITS"
          risks := extract_section s "RISKS"
          completeness_score := extract_completeness s
          confidence_score := pymin 0.95 (pymax 0.6 (extract_completeness s / 100)) } := rfl
    rw [h]
    exact ⟨(pymin_pymax_bounds _).1, (pymin_pymax_bounds _).2, rfl⟩

/-- C9: every kept benefits or risks item is a non-empty string longer than
ten characters; a response without the section header yields the empty list;
the completeness score is the first integer immediately preceding a percent
sign, or 75 when no such match exists. -/
theorem C9_parsing_properties (s : String) :
    (∀ item ∈ extract_section s "BENEFITS", item ≠ "" ∧ 10 < item.length) ∧
    (occursCI "BENEFITS:" s = false → extract_section s "BENEFITS" = []) ∧
    (∀ item ∈ extract_section s "RISKS", item ≠ "" ∧ 10 < item.length) ∧
    (occursCI "RISKS:" s = false → extract_section s "RISKS" = []) ∧
    ((¬ ∃ a d b, IsPercentIntAt s.data a d b) → extract_completeness s = 75) ∧
    (∀ a d b, IsPercentIntAt s.data a d b →
      (∀ a' d' b', IsPercentIntAt s.data a' d' b' → a.length ≤ a'.length) →
      extract_completeness s = (digitsToNat d : ℚ)) := by
  refine ⟨fun item hmem => extract_section_mem s "BENEFITS" item hmem,
    fun h => extract_section_no_header s "BENEFITS" h,
    fun item hmem => extract_section_mem s "RISKS" item hmem,
    fun h => extract_section_no_header s "RISKS" h, ?_, ?_⟩
  · intro hno
    unfold extract_completeness
    cases hf : findPercentNum s.data with
    | none => rfl
    | some n =>
      obtain ⟨a, d, b, hP, _⟩ := findPercentNum_some _ _ hf
      exact absurd ⟨a, d, b, hP⟩ hno
  · intro a d b hP hmin
    unfold extract_completeness
    rw [findPercentNum_first d b a s.data hP.1 hP.2.1 hP.2.2 hmin]

/-- C9 witness: a response without the header yields the empty benefits
list. -/
theorem C9_witness : extract_section "hello" "BENEFITS" = [] :=
  (C9_parsing_properties "hello").2.1 (by rfl)

/-- C10: file validation rejects the empty filename and otherwise accepts
exactly the lowercased names ending in pdf, jpg, jpeg or png; jpeg is in the
allowed set even though the document-types operation advertises it for no
document type. -/
theorem C10_file_validation :
    is_valid_file "" = false ∧
    (∀ f : String, is_valid_file f =
      (pyEndsWith (pyLower f) ".pdf" || (pyEndsWith (pyLower f) ".jpg" ||
       (pyEndsWith (pyLower f) ".jpeg" || pyEndsWith (pyLower f) ".png")))) ∧
    ".jpeg" ∈ allowed_extensions ∧
    document_types.all (fun p => !(p.2.contains ".jpeg")) = true := by
  refine ⟨rfl, ?_, by decide, by decide⟩
  intro f
  by_cases hf : f = ""
  · subst hf
    rfl
  · unfold is_valid_file
    rw [if_neg hf]
    simp [allowed_extensions, List.any_cons, List.any_nil]

end PropDoc
